import Mathlib

/-!
Shallow embedding of `src/index.js` of `ts-image-proxy`: an HTTP image relay
with a fixed hostname allow-list, a three-strategy fallback fetch chain, and
translation of upstream failures into outward HTTP responses.

Strings are modelled with Lean `String`; JavaScript string operations
(`includes`, `endsWith`) are defined structurally on the character list.
Upstream network behaviour (axios) is modelled by an oracle assigning an
outcome to each strategy number; the handler records the network calls it
makes (strategy number and the headers sent) so that call-count and
header-identity claims are statable.
-/

/-- JS `s.includes(pat)` on character lists: `pat` occurs as a contiguous
substring of `s`. -/
def includesAux (pat : List Char) : List Char → Bool
  | [] => pat.isEmpty
  | c :: cs => pat.isPrefixOf (c :: cs) || includesAux pat cs

/-- JS `String.prototype.includes`. -/
def strIncludes (s pat : String) : Bool :=
  includesAux pat.toList s.toList

/-- JS `s.endsWith(pat)` on character lists: `pat` is a suffix of `s`. -/
def endsWithAux (pat : List Char) : List Char → Bool
  | [] => pat.isEmpty
  | c :: cs => ((c :: cs) == pat) || endsWithAux pat cs

/-- JS `String.prototype.endsWith`. -/
def strEndsWith (s pat : String) : Bool :=
  endsWithAux pat.toList s.toList

/-- ASCII letter test. -/
def isAsciiAlpha (c : Char) : Bool :=
  ('a' ≤ c && c ≤ 'z') || ('A' ≤ c && c ≤ 'Z')

/-- ASCII decimal digit test. -/
def isAsciiDigit (c : Char) : Bool := '0' ≤ c && c ≤ '9'

/-- ASCII hexadecimal digit test. -/
def isAsciiHexDigit (c : Char) : Bool :=
  isAsciiDigit c || ('a' ≤ c && c ≤ 'f') || ('A' ≤ c && c ≤ 'F')

/-- ASCII octal digit test. -/
def isOctalDigit (c : Char) : Bool := '0' ≤ c && c ≤ '7'

/-- ASCII lowercasing of a character (WHATWG domains lowercase ASCII). -/
def asciiLower (c : Char) : Char :=
  if 'A' ≤ c ∧ c ≤ 'Z' then Char.ofNat (c.toNat + 32) else c

/-- Characters allowed in a URL scheme after its initial letter. -/
def isSchemeChar (c : Char) : Bool :=
  isAsciiAlpha c || isAsciiDigit c || c == '+' || c == '-' || c == '.'

/-- C0 controls and space, trimmed from both ends of URL input. -/
def isC0OrSpace (c : Char) : Bool := c.toNat ≤ 0x20

/-- WHATWG input preprocessing: trim leading and trailing C0 controls and
spaces. -/
def trimC0Space (l : List Char) : List Char :=
  ((l.dropWhile isC0OrSpace).reverse.dropWhile isC0OrSpace).reverse

/-- WHATWG input preprocessing: remove every tab, line feed and carriage
return. -/
def stripTabNewline (l : List Char) : List Char :=
  l.filter fun c => !(c == '\t' || c == '\n' || c == '\r')

/-- Consumes scheme characters until the `:` ending the scheme; fails if a
non-scheme character or the end of input is reached first. -/
def schemeSplitAux (acc : List Char) : List Char → Option (List Char × List Char)
  | [] => none
  | ':' :: rest => some (acc.reverse, rest)
  | c :: rest => if isSchemeChar c then schemeSplitAux (c :: acc) rest else none

/-- Splits input into scheme and remainder; the scheme must start with an
ASCII letter. A URL without a scheme fails to parse (no base URL in the
program). -/
def splitScheme : List Char → Option (List Char × List Char)
  | [] => none
  | c :: rest => if isAsciiAlpha c then schemeSplitAux [c] rest else none

/-- The part of the authority after the last `@` (the host-and-port part;
everything before the last `@` is userinfo), or the whole authority when no
`@` is present. -/
def afterLastAt (l : List Char) : List Char :=
  (l.reverse.takeWhile fun c => !(c == '@')).reverse

/-- Value of an ASCII hexadecimal digit (also used for octal and decimal
digits, which are a subset). -/
def hexVal (c : Char) : Nat :=
  if isAsciiDigit c then c.toNat - 48
  else if 'a' ≤ c ∧ c ≤ 'f' then c.toNat - 87
  else c.toNat - 55

/-- Reads a digit list in the given radix. -/
def digitsToNatRadix (r : Nat) (l : List Char) : Nat :=
  l.foldl (fun acc c => acc * r + hexVal c) 0

/-- A URL port is valid when it is empty or all decimal digits with value
at most 65535; anything else makes the URL throw. -/
def portValid (p : List Char) : Bool :=
  p.all isAsciiDigit && (p.isEmpty || digitsToNatRadix 10 p ≤ 65535)

/-- Percent-decoding: `%XY` with two hex digits becomes the byte it names;
malformed sequences are kept literally (WHATWG percent-decode never
fails). -/
def percentDecode : List Char → List Char
  | [] => []
  | '%' :: a :: b :: rest =>
    if isAsciiHexDigit a && isAsciiHexDigit b then
      Char.ofNat (16 * hexVal a + hexVal b) :: percentDecode rest
    else
      '%' :: percentDecode (a :: b :: rest)
  | c :: rest => c :: percentDecode rest

/-- WHATWG forbidden host code points (make an opaque host throw). -/
def isForbiddenHostChar (c : Char) : Bool :=
  c.toNat = 0 || c == '\t' || c == '\n' || c == '\r' || c == ' ' || c == '#' ||
  c == '/' || c == ':' || c == '<' || c == '>' || c == '?' || c == '@' ||
  c == '[' || c == '\\' || c == ']' || c == '^' || c == '|'

/-- WHATWG forbidden domain code points (make a special-scheme host throw):
the forbidden host code points plus C0 controls, `%` and delete. -/
def isForbiddenDomainChar (c : Char) : Bool :=
  isForbiddenHostChar c || c.toNat ≤ 0x1F || c == '%' || c.toNat = 0x7F

/-- Splits a character list on `.` (labels of a domain). -/
def splitOnDotAux (cur : List Char) : List Char → List (List Char)
  | [] => [cur.reverse]
  | '.' :: rest => cur.reverse :: splitOnDotAux [] rest
  | c :: rest => splitOnDotAux (c :: cur) rest

/-- Splits a character list on `.` (labels of a domain). -/
def splitOnDot (l : List Char) : List (List Char) := splitOnDotAux [] l

/-- A label that makes a host "end in a number" (WHATWG): nonempty and all
decimal digits, or `0x`/`0X` followed by hex digits. -/
def isIpv4NumberCandidate (l : List Char) : Bool :=
  match l with
  | '0' :: x :: rest =>
    if x == 'x' || x == 'X' then rest.all isAsciiHexDigit
    else ('0' :: x :: rest).all isAsciiDigit
  | _ => !l.isEmpty && l.all isAsciiDigit

/-- WHATWG "ends in a number": drop one trailing empty label, then test the
last label; such hosts are parsed as IPv4 addresses. -/
def endsInNumber (host : List Char) : Bool :=
  let parts0 := splitOnDot host
  let parts := if parts0.getLast? = some [] then parts0.dropLast else parts0
  match parts.getLast? with
  | none => false
  | some last => isIpv4NumberCandidate last

/-- WHATWG IPv4 number parser: `0x`/`0X` prefix is hexadecimal (possibly
empty, value 0), a leading `0` on a longer string is octal, otherwise
decimal; any invalid digit fails. -/
def ipv4Number (l : List Char) : Option Nat :=
  match l with
  | [] => none
  | '0' :: x :: rest =>
    if x == 'x' || x == 'X' then
      if rest.all isAsciiHexDigit then some (digitsToNatRadix 16 rest) else none
    else
      if (x :: rest).all isOctalDigit then some (digitsToNatRadix 8 (x :: rest)) else none
  | _ =>
    if l.all isAsciiDigit then some (digitsToNatRadix 10 l) else none

/-- Parses every dot-separated part as an IPv4 number, failing if any part
fails. -/
def ipv4Numbers : List (List Char) → Option (List Nat)
  | [] => some []
  | p :: ps =>
    match ipv4Number p, ipv4Numbers ps with
    | some n, some ns => some (n :: ns)
    | _, _ => none

/-- WHATWG IPv4 parser plus serializer: at most 4 parts (one trailing empty
part tolerated), every part a valid IPv4 number, non-last parts at most 255
and the last below `256^(5-n)`; the resulting 32-bit address is rendered as
the canonical dotted quad, which becomes the hostname. -/
def ipv4Canonical (host : List Char) : Option (List Char) :=
  let parts0 := splitOnDot host
  let parts := if parts0.getLast? = some [] then parts0.dropLast else parts0
  if parts.length = 0 ∨ 4 < parts.length then none
  else
    match ipv4Numbers parts with
    | none => none
    | some ns =>
      match ns.reverse with
      | [] => none
      | lastN :: initRev =>
        let start := initRev.reverse
        if start.any (fun n => 255 < n) then none
        else if 256 ^ (5 - ns.length) ≤ lastN then none
        else
          let addr := (start.foldl (fun acc n => acc * 256 + n) 0) *
            256 ^ (5 - ns.length) + lastN
          some ((toString (addr / 16777216 % 256)).toList ++ '.' ::
                (toString (addr / 65536 % 256)).toList ++ '.' ::
                (toString (addr / 256 % 256)).toList ++ '.' ::
                (toString (addr % 256)).toList)

/-- Host parsing for special schemes: strip userinfo at the last `@`,
split off and validate the port at the first `:`, reject an empty host,
percent-decode, restrict to ASCII (non-ASCII hosts go through IDNA and are
outside this model), lowercase, reject forbidden domain code points
(including `[`/`]`, so IPv6 literals are modelled as failures — their real
bracketed hostnames cannot match the allow-list), and canonicalize hosts
that end in a number as IPv4 addresses. -/
def specialHostOf (authority : List Char) : Option String :=
  let hp := afterLastAt authority
  let hostRaw := hp.takeWhile fun c => !(c == ':')
  let portOk := match hp.dropWhile fun c => !(c == ':') with
    | [] => true
    | _ :: p => portValid p
  if !portOk then none
  else if hostRaw.isEmpty then none
  else
    let decoded := percentDecode hostRaw
    if decoded.any (fun c => 128 ≤ c.toNat) then none
    else
      let lower := decoded.map asciiLower
      if lower.any isForbiddenDomainChar then none
      else if endsInNumber lower then (ipv4Canonical lower).map String.mk
      else some (String.mk lower)

/-- Opaque-host parsing for non-special schemes: userinfo and port handled
as for special schemes, but the host is kept verbatim — no lowercasing and
no percent-decoding — and only the forbidden host code points throw. -/
def opaqueHostOf (authority : List Char) : Option String :=
  let hp := afterLastAt authority
  let hostRaw := hp.takeWhile fun c => !(c == ':')
  let portOk := match hp.dropWhile fun c => !(c == ':') with
    | [] => true
    | _ :: p => portValid p
  if !portOk then none
  else if hostRaw.isEmpty then none
  else if hostRaw.any isForbiddenHostChar then none
  else some (String.mk hostRaw)

/-- The WHATWG special schemes with an authority (besides `file`). -/
def specialSchemes : List (List Char) :=
  ["http".toList, "https".toList, "ws".toList, "wss".toList, "ftp".toList]

/-- Slash or backslash: special schemes treat both as slashes. -/
def isSlashish (c : Char) : Bool := c == '/' || c == '\\'

/-- Characters that end the authority of a special-scheme URL. -/
def specialTerminator (c : Char) : Bool :=
  c == '/' || c == '\\' || c == '?' || c == '#'

/-- Model of the WHATWG URL parse performed by `new URL(url)` in
`isValidImageUrl`, reduced to what the validator reads: the hostname, or
`none` when the constructor throws. Faithful to WHATWG parsing of ASCII
input: tabs and newlines are removed and the ends trimmed; the scheme is
lowercased; special schemes tolerate any number of slashes or backslashes
after the colon (so `https:host` parses); userinfo before the last `@` is
dropped; the port at the first `:` is validated; special hosts are
percent-decoded, lowercased and IPv4-canonicalized when numeric; opaque
hosts of non-special schemes are kept verbatim. Outside the model, mapped
to `none`: hosts that are non-ASCII after percent-decoding (IDNA/punycode),
bracketed IPv6 literals, hostless forms (`file:` paths, opaque paths such
as `mailto:`) — real parsing gives these either an error or a hostname
(bracketed, empty, or a dotted quad) that cannot match the allow-list, so
every validator outcome is preserved for them. -/
def parseHostname (s : String) : Option String :=
  let input := stripTabNewline (trimC0Space s.toList)
  match splitScheme input with
  | none => none
  | some (schemeRaw, rest) =>
    let scheme := schemeRaw.map asciiLower
    if scheme = "file".toList then
      match rest with
      | a :: b :: r2 =>
        if isSlashish a && isSlashish b then
          specialHostOf (r2.takeWhile fun c => !specialTerminator c)
        else none
      | _ => none
    else if specialSchemes.contains scheme then
      specialHostOf ((rest.dropWhile isSlashish).takeWhile fun c => !specialTerminator c)
    else
      match rest with
      | '/' :: '/' :: r2 =>
        opaqueHostOf (r2.takeWhile fun c => !(c == '/' || c == '?' || c == '#'))
      | _ => none

/-- The fixed allow-list `validDomains` of `isValidImageUrl`. -/
def validDomains : List String :=
  [ "scontent.cdninstagram.com"
  , "instagram.com"
  , "threads.net"
  , "fbcdn.net"
  , "scontent.xx.fbcdn.net" ]

/-- `isValidImageUrl(url)`: parse the URL (a parse failure yields `false`),
then accept iff some allow-list entry is contained in the hostname or is a
suffix of it (`hostname.includes(domain) || hostname.endsWith(domain)`). -/
def isValidImageUrl (url : String) : Bool :=
  match parseHostname url with
  | none => false
  | some hostname =>
    validDomains.any fun domain =>
      strIncludes hostname domain || strEndsWith hostname domain

/-- Variant of `isValidImageUrl` with the `endsWith` clause deleted, used to
state the refinement claim that the clause is redundant. -/
def isValidImageUrlIncludesOnly (url : String) : Bool :=
  match parseHostname url with
  | none => false
  | some hostname =>
    validDomains.any fun domain => strIncludes hostname domain

/-- The fixed pool `userAgents` of the handler. -/
def userAgents : List String :=
  [ "Mozilla/5.0 (Windows NT 10.0; Win64; x64) AppleWebKit/537.36 (KHTML, like Gecko) Chrome/120.0.0.0 Safari/537.36"
  , "Mozilla/5.0 (Macintosh; Intel Mac OS X 10_15_7) AppleWebKit/537.36 (KHTML, like Gecko) Chrome/120.0.0.0 Safari/537.36"
  , "Mozilla/5.0 (X11; Linux x86_64) AppleWebKit/537.36 (KHTML, like Gecko) Chrome/120.0.0.0 Safari/537.36"
  , "Mozilla/5.0 (iPhone; CPU iPhone OS 17_0 like Mac OS X) AppleWebKit/605.1.15 (KHTML, like Gecko) Version/17.0 Mobile/15E148 Safari/604.1" ]

/-- `userAgents[Math.floor(Math.random() * userAgents.length)]`: the random
draw is modelled by an arbitrary natural `uaIdx`, reduced modulo the pool
size (the JS index is always in range). -/
def randomUA (uaIdx : Nat) : String :=
  userAgents.getD (uaIdx % userAgents.length) ""

/-- Strategy 1 headers (`headers` in the source). -/
def fullHeaders (ua : String) : List (String × String) :=
  [ ("User-Agent", ua)
  , ("Accept", "image/avif,image/webp,image/apng,image/svg+xml,image/*,*/*;q=0.8")
  , ("Accept-Language", "en-US,en;q=0.9")
  , ("Accept-Encoding", "gzip, deflate, br")
  , ("Cache-Control", "no-cache")
  , ("Pragma", "no-cache")
  , ("Sec-Fetch-Dest", "image")
  , ("Sec-Fetch-Mode", "no-cors")
  , ("Sec-Fetch-Site", "cross-site")
  , ("Sec-Ch-Ua", "\x22Not_A Brand\x22;v=\x228\x22, \x22Chromium\x22;v=\x22120\x22, \x22Google Chrome\x22;v=\x22120\x22")
  , ("Sec-Ch-Ua-Mobile", "?0")
  , ("Sec-Ch-Ua-Platform", "\x22Windows\x22")
  , ("Referer", "https://www.threads.net/")
  , ("Origin", "https://www.threads.net") ]

/-- Strategy 2 headers (`minimalHeaders` in the source). -/
def minimalHeaders (ua : String) : List (String × String) :=
  [ ("User-Agent", ua)
  , ("Accept", "image/*,*/*;q=0.8")
  , ("Referer", "https://www.threads.net/") ]

/-- Strategy 3 headers (`altHeaders` in the source); `ip` is the value
produced by `generateRandomIP()`. -/
def altHeaders (ua ip : String) : List (String × String) :=
  [ ("User-Agent", ua)
  , ("Accept", "image/*,*/*;q=0.8")
  , ("Referer", "https://instagram.com/")
  , ("X-Forwarded-For", ip) ]

/-- The `timeout: 25000` option passed to every axios call (milliseconds). -/
def strategyTimeoutMs : Nat := 25000

/-- The `maxRedirects: 5` option passed to every axios call. -/
def strategyMaxRedirects : Nat := 5

/-- An axios error as read by the catch block: its `code` and, when an
upstream response exists, `error.response.status`. -/
structure AxiosError where
  code : Option String
  responseStatus : Option Nat
deriving DecidableEq, Repr

/-- Outcome of one strategy attempt: a resolved response (its declared
`content-type` header, possibly absent, and body bytes) or a rejection. -/
inductive AttemptResult where
  | success (contentType : Option String) (data : List Nat)
  | failure (e : AxiosError)
deriving DecidableEq, Repr

/-- Outward response body: raw bytes (`res.send`) or a JSON error object
`{error: msg}` (`res.json`). -/
inductive Body where
  | bytes (b : List Nat)
  | jsonError (msg : String)
deriving DecidableEq, Repr

/-- Outward response as assembled by the handler: status, the headers it
sets, and the body. -/
structure Response where
  status : Nat
  contentType : Option String
  cacheControl : Option String
  etag : Bool
  body : Body
deriving DecidableEq, Repr

/-- `setCacheHeaders(res, maxAge)`: the `Cache-Control` value it sets
(default `maxAge` 3600). -/
def setCacheHeaders (maxAge : Nat := 3600) : String :=
  "public, max-age=" ++ toString maxAge

/-- A `res.status(s).json({error: msg})` response. -/
def jsonErrorResponse (status : Nat) (msg : String) : Response :=
  { status := status, contentType := none, cacheControl := none
  , etag := false, body := .jsonError msg }

/-- The catch block of the handler: classify `error` and answer. Checked in
source order: `ENOTFOUND`/`ECONNREFUSED` → 404, `error.response?.status ===
403` → 403, `ETIMEDOUT` → 408, otherwise 500. -/
def errorResponse (e : AxiosError) : Response :=
  if e.code = some "ENOTFOUND" ∨ e.code = some "ECONNREFUSED" then
    jsonErrorResponse 404 "Image not found"
  else if e.responseStatus = some 403 then
    jsonErrorResponse 403 "Access forbidden"
  else if e.code = some "ETIMEDOUT" then
    jsonErrorResponse 408 "Request timeout"
  else
    jsonErrorResponse 500 "Failed to fetch image"

/-- A network call record: the strategy number (1, 2 or 3) and the headers
sent with it. -/
abbrev CallTrace : Type := List (Nat × List (String × String))

/-- The nested try/catch fallback: strategy 1, then 2 on failure, then 3 on
failure; later failures overwrite `lastError`, and after strategy 3 fails
`lastError` (strategy 3's error) is thrown. The oracle `o` gives each
strategy's outcome were it attempted; the trace lists the attempts made. -/
def runStrategyChain (h1 h2 h3 : List (String × String))
    (o : Nat → AttemptResult) : AttemptResult × CallTrace :=
  match o 1 with
  | .success ct d => (.success ct d, [(1, h1)])
  | .failure _e1 =>
    match o 2 with
    | .success ct d => (.success ct d, [(1, h1), (2, h2)])
    | .failure _e2 =>
      match o 3 with
      | .success ct d => (.success ct d, [(1, h1), (2, h2), (3, h3)])
      | .failure e3 => (.failure e3, [(1, h1), (2, h2), (3, h3)])

/-- The strategy chain as run for one request: the three header sets are
built from the request's single user-agent draw (and, for strategy 3, the
`generateRandomIP()` value `ip`). -/
def requestChain (uaIdx : Nat) (ip : String) (o : Nat → AttemptResult) :
    AttemptResult × CallTrace :=
  runStrategyChain (fullHeaders (randomUA uaIdx)) (minimalHeaders (randomUA uaIdx))
    (altHeaders (randomUA uaIdx) ip) o

/-- The success path of the handler: `contentType` is the upstream declared
content type defaulting to `image/jpeg`, `setCacheHeaders(res, 86400)` is
applied, and the body is `Buffer.from(response.data)` — the raw bytes. -/
def successResponse (ct : Option String) (d : List Nat) : Response :=
  { status := 200
  , contentType := some (ct.getD "image/jpeg")
  , cacheControl := some (setCacheHeaders 86400)
  , etag := true
  , body := .bytes d }

/-- The `GET /proxy/image` handler. `url?` is `req.query.url` (`none` when
absent; JS falsiness makes the empty string take the same branch), `uaIdx`
models the user-agent draw, `ip` the `generateRandomIP()` result, and `o`
the upstream behaviour. Returns the outward response and the network calls
made. -/
def proxyImageHandler (url? : Option String) (uaIdx : Nat) (ip : String)
    (o : Nat → AttemptResult) : Response × CallTrace :=
  match url? with
  | none => (jsonErrorResponse 400 "URL parameter is required", [])
  | some url =>
    if url = "" then
      (jsonErrorResponse 400 "URL parameter is required", [])
    else if isValidImageUrl url then
      match requestChain uaIdx ip o with
      | (.success ct d, calls) => (successResponse ct d, calls)
      | (.failure e, calls) => (errorResponse e, calls)
    else
      (jsonErrorResponse 400 "Invalid image URL", [])

/-! Helper lemmas shared by the claim theorems. -/

lemma valid_ne_empty {url : String} (h : isValidImageUrl url = true) : url ≠ "" := by
  intro he
  rw [he] at h
  exact absurd h (by decide)

lemma proxyImageHandler_valid (url : String) (uaIdx : Nat) (ip : String)
    (o : Nat → AttemptResult) (hvalid : isValidImageUrl url = true) :
    proxyImageHandler (some url) uaIdx ip o =
      match requestChain uaIdx ip o with
      | (.success ct d, calls) => (successResponse ct d, calls)
      | (.failure e, calls) => (errorResponse e, calls) := by
  have hne := valid_ne_empty hvalid
  simp [proxyImageHandler, hne, hvalid]

lemma requestChain_all_fail (uaIdx : Nat) (ip : String) (o : Nat → AttemptResult)
    (e1 e2 e3 : AxiosError) (h1 : o 1 = .failure e1) (h2 : o 2 = .failure e2)
    (h3 : o 3 = .failure e3) :
    requestChain uaIdx ip o =
      (.failure e3,
       [ (1, fullHeaders (randomUA uaIdx))
       , (2, minimalHeaders (randomUA uaIdx))
       , (3, altHeaders (randomUA uaIdx) ip) ]) := by
  simp [requestChain, runStrategyChain, h1, h2, h3]

lemma handler_all_fail (url : String) (uaIdx : Nat) (ip : String)
    (o : Nat → AttemptResult) (e1 e2 e3 : AxiosError)
    (hvalid : isValidImageUrl url = true) (h1 : o 1 = .failure e1)
    (h2 : o 2 = .failure e2) (h3 : o 3 = .failure e3) :
    (proxyImageHandler (some url) uaIdx ip o).1 = errorResponse e3 := by
  rw [proxyImageHandler_valid url uaIdx ip o hvalid,
    requestChain_all_fail uaIdx ip o e1 e2 e3 h1 h2 h3]

lemma errorResponse_status (e : AxiosError) :
    (errorResponse e).status = 404 ∨ (errorResponse e).status = 403 ∨
    (errorResponse e).status = 408 ∨ (errorResponse e).status = 500 := by
  unfold errorResponse
  split_ifs <;> simp [jsonErrorResponse]

lemma getD_mem_userAgents (i : Nat) (h : i < userAgents.length) :
    userAgents.getD i "" ∈ userAgents := by
  have h4 : i < 4 := by simpa [userAgents] using h
  interval_cases i <;> decide

lemma isPrefixOf_self (l : List Char) : l.isPrefixOf l = true := by
  induction l with
  | nil => rfl
  | cons c t ih => simp [List.isPrefixOf, ih]

lemma endsWithAux_imp_includesAux (pat s : List Char)
    (h : endsWithAux pat s = true) : includesAux pat s = true := by
  induction s with
  | nil => simpa [endsWithAux, includesAux] using h
  | cons c t ih =>
    simp only [endsWithAux, Bool.or_eq_true, beq_iff_eq] at h
    simp only [includesAux, Bool.or_eq_true]
    rcases h with h | h
    · left
      rw [← h]
      exact isPrefixOf_self _
    · right
      exact ih h

lemma includes_or_endsWith (h d : String) :
    (strIncludes h d || strEndsWith h d) = strIncludes h d := by
  cases he : strEndsWith h d with
  | false => simp [he]
  | true =>
    have hi : strIncludes h d = true := by
      have := endsWithAux_imp_includesAux d.toList h.toList
        (by simpa [strEndsWith] using he)
      simpa [strIncludes] using this
    simp [he, hi]

/-! Fidelity checks of the parse model on inputs where WHATWG parsing is
lenient or subtle: hostnames are ASCII-lowercased, a special scheme needs no
slashes after the colon, userinfo ends at the last `@` (the real hostname of
the third URL is `evil.net`, not `instagram.com`), percent-encoded bytes are
decoded before matching, and numeric hosts become canonical dotted quads. -/

lemma parseHostname_lowercases :
    parseHostname "https://INSTAGRAM.COM/a.jpg" = some "instagram.com" ∧
    isValidImageUrl "https://INSTAGRAM.COM/a.jpg" = true := by
  exact ⟨by decide, by decide⟩

lemma parseHostname_scheme_no_slashes :
    parseHostname "https:instagram.com/a.jpg" = some "instagram.com" ∧
    isValidImageUrl "https:instagram.com/a.jpg" = true := by
  exact ⟨by decide, by decide⟩

lemma parseHostname_userinfo :
    parseHostname "https://instagram.com:x@evil.net/a.jpg" = some "evil.net" ∧
    isValidImageUrl "https://instagram.com:x@evil.net/a.jpg" = false := by
  exact ⟨by decide, by decide⟩

lemma parseHostname_percent_decodes :
    parseHostname "https://INSTA%47RAM.COM/a.jpg" = some "instagram.com" := by
  decide

lemma parseHostname_ipv4 :
    parseHostname "https://0x7f.1/" = some "127.0.0.1" ∧
    parseHostname "https://instagram.com.1/" = none := by
  exact ⟨by decide, by decide⟩

/-! The claim theorems. -/

/-- C1: for every successful upstream fetch returning body bytes `B` and
declared content type `ct` (possibly absent), the outward response has
status 200, `Content-Type` equal to the declared type (or `image/jpeg` when
none was declared), `Cache-Control` of `public, max-age=86400`, and a body
byte-identical to `B`. -/
theorem claim_C1_success_roundtrip (url : String) (uaIdx : Nat) (ip : String)
    (o : Nat → AttemptResult) (ct : Option String) (B : List Nat)
    (hvalid : isValidImageUrl url = true)
    (hsucc : (requestChain uaIdx ip o).1 = .success ct B) :
    (proxyImageHandler (some url) uaIdx ip o).1.status = 200 ∧
    (∀ t, ct = some t →
      (proxyImageHandler (some url) uaIdx ip o).1.contentType = some t) ∧
    (ct = none →
      (proxyImageHandler (some url) uaIdx ip o).1.contentType = some "image/jpeg") ∧
    (proxyImageHandler (some url) uaIdx ip o).1.cacheControl =
      some (setCacheHeaders 86400) ∧
    setCacheHeaders 86400 = "public, max-age=86400" ∧
    (proxyImageHandler (some url) uaIdx ip o).1.body = .bytes B := by
  rcases hc : requestChain uaIdx ip o with ⟨r, calls⟩
  rw [hc] at hsucc
  simp only at hsucc
  subst hsucc
  rw [proxyImageHandler_valid url uaIdx ip o hvalid, hc]
  refine ⟨rfl, ?_, ?_, rfl, by decide, rfl⟩
  · intro t ht
    simp [successResponse, ht]
  · intro ht
    simp [successResponse, ht]

/-- C1 witness: a concrete valid URL whose strategy 1 succeeds with content
type `image/webp` and bytes `[0xFF, 0xD8]`. -/
theorem claim_C1_success_roundtrip_witness :
    isValidImageUrl "https://scontent.cdninstagram.com/foo.jpg" = true ∧
    ((proxyImageHandler (some "https://scontent.cdninstagram.com/foo.jpg") 0 "1.2.3.4"
        (fun _ => .success (some "image/webp") [255, 216])).1.status = 200 ∧
     (∀ t, (some "image/webp" : Option String) = some t →
       (proxyImageHandler (some "https://scontent.cdninstagram.com/foo.jpg") 0 "1.2.3.4"
         (fun _ => .success (some "image/webp") [255, 216])).1.contentType = some t) ∧
     ((some "image/webp" : Option String) = none →
       (proxyImageHandler (some "https://scontent.cdninstagram.com/foo.jpg") 0 "1.2.3.4"
         (fun _ => .success (some "image/webp") [255, 216])).1.contentType = some "image/jpeg") ∧
     (proxyImageHandler (some "https://scontent.cdninstagram.com/foo.jpg") 0 "1.2.3.4"
        (fun _ => .success (some "image/webp") [255, 216])).1.cacheControl =
       some (setCacheHeaders 86400) ∧
     setCacheHeaders 86400 = "public, max-age=86400" ∧
     (proxyImageHandler (some "https://scontent.cdninstagram.com/foo.jpg") 0 "1.2.3.4"
        (fun _ => .success (some "image/webp") [255, 216])).1.body = .bytes [255, 216]) :=
  ⟨by decide,
   claim_C1_success_roundtrip "https://scontent.cdninstagram.com/foo.jpg" 0 "1.2.3.4"
     (fun _ => .success (some "image/webp") [255, 216]) (some "image/webp") [255, 216]
     (by decide) rfl⟩

/-- C3: for every request that passes validation, strategy 2 is attempted
iff strategy 1 failed, strategy 3 is attempted iff strategies 1 and 2 both
failed, and if strategy 1 succeeds the trace is exactly one call (strategy
1 only). -/
theorem claim_C3_strategy_order (url : String) (uaIdx : Nat) (ip : String)
    (o : Nat → AttemptResult) (hvalid : isValidImageUrl url = true) :
    ((2 ∈ ((proxyImageHandler (some url) uaIdx ip o).2.map Prod.fst)) ↔
      (∃ e, o 1 = .failure e)) ∧
    ((3 ∈ ((proxyImageHandler (some url) uaIdx ip o).2.map Prod.fst)) ↔
      ((∃ e, o 1 = .failure e) ∧ (∃ e, o 2 = .failure e))) ∧
    (∀ ct d, o 1 = .success ct d →
      (proxyImageHandler (some url) uaIdx ip o).2.map Prod.fst = [1]) := by
  rw [proxyImageHandler_valid url uaIdx ip o hvalid]
  rcases h1 : o 1 with ⟨ct1, d1⟩ | ⟨e1⟩ <;> rcases h2 : o 2 with ⟨ct2, d2⟩ | ⟨e2⟩ <;>
    rcases h3 : o 3 with ⟨ct3, d3⟩ | ⟨e3⟩ <;>
      simp [requestChain, runStrategyChain, h1, h2, h3]

/-- C3 witness: all strategies fail with connection-refused; strategies 2
and 3 are both attempted. -/
theorem claim_C3_strategy_order_witness :
    isValidImageUrl "https://instagram.com/a.jpg" = true ∧
    (((2 ∈ ((proxyImageHandler (some "https://instagram.com/a.jpg") 0 "1.2.3.4"
        (fun _ => .failure ⟨some "ECONNREFUSED", none⟩)).2.map Prod.fst)) ↔
      (∃ e, (fun _ => AttemptResult.failure ⟨some "ECONNREFUSED", none⟩) 1 = .failure e)) ∧
    ((3 ∈ ((proxyImageHandler (some "https://instagram.com/a.jpg") 0 "1.2.3.4"
        (fun _ => .failure ⟨some "ECONNREFUSED", none⟩)).2.map Prod.fst)) ↔
      ((∃ e, (fun _ => AttemptResult.failure ⟨some "ECONNREFUSED", none⟩) 1 = .failure e) ∧
       (∃ e, (fun _ => AttemptResult.failure ⟨some "ECONNREFUSED", none⟩) 2 = .failure e))) ∧
    (∀ ct d, (fun _ => AttemptResult.failure ⟨some "ECONNREFUSED", none⟩) 1 = .success ct d →
      (proxyImageHandler (some "https://instagram.com/a.jpg") 0 "1.2.3.4"
        (fun _ => .failure ⟨some "ECONNREFUSED", none⟩)).2.map Prod.fst = [1])) :=
  ⟨by decide,
   claim_C3_strategy_order "https://instagram.com/a.jpg" 0 "1.2.3.4"
     (fun _ => .failure ⟨some "ECONNREFUSED", none⟩) (by decide)⟩

/-- C4: when all strategies fail, the terminal error maps to: DNS failure
or connection refused → 404 `{error: "Image not found"}`; upstream 403
(which has no connection-failure code) → 403 `{error: "Access forbidden"}`;
any other non-timeout error → 500 `{error: "Failed to fetch image"}`; and
the response is always one of the classified statuses, so no failure leaves
the request unanswered. -/
theorem claim_C4_error_classification (url : String) (uaIdx : Nat) (ip : String)
    (o : Nat → AttemptResult) (e1 e2 e3 : AxiosError)
    (hvalid : isValidImageUrl url = true) (h1 : o 1 = .failure e1)
    (h2 : o 2 = .failure e2) (h3 : o 3 = .failure e3) :
    ((e3.code = some "ENOTFOUND" ∨ e3.code = some "ECONNREFUSED") →
      (proxyImageHandler (some url) uaIdx ip o).1 =
        jsonErrorResponse 404 "Image not found") ∧
    ((e3.responseStatus = some 403 ∧ e3.code ≠ some "ENOTFOUND" ∧
        e3.code ≠ some "ECONNREFUSED") →
      (proxyImageHandler (some url) uaIdx ip o).1 =
        jsonErrorResponse 403 "Access forbidden") ∧
    ((e3.code ≠ some "ENOTFOUND" ∧ e3.code ≠ some "ECONNREFUSED" ∧
        e3.code ≠ some "ETIMEDOUT" ∧ e3.responseStatus ≠ some 403) →
      (proxyImageHandler (some url) uaIdx ip o).1 =
        jsonErrorResponse 500 "Failed to fetch image") ∧
    ((proxyImageHandler (some url) uaIdx ip o).1.status = 404 ∨
     (proxyImageHandler (some url) uaIdx ip o).1.status = 403 ∨
     (proxyImageHandler (some url) uaIdx ip o).1.status = 408 ∨
     (proxyImageHandler (some url) uaIdx ip o).1.status = 500) := by
  rw [handler_all_fail url uaIdx ip o e1 e2 e3 hvalid h1 h2 h3]
  refine ⟨?_, ?_, ?_, errorResponse_status e3⟩
  · intro hc
    simp [errorResponse, hc]
  · rintro ⟨hs, hn1, hn2⟩
    simp [errorResponse, hs, hn1, hn2]
  · rintro ⟨hn1, hn2, hn3, hs⟩
    simp [errorResponse, hn1, hn2, hn3, hs]

/-- C4 witness: all strategies fail with connection-refused on a valid URL;
the outward response is 404 `{error: "Image not found"}`. -/
theorem claim_C4_error_classification_witness :
    isValidImageUrl "https://scontent.cdninstagram.com/foo.jpg" = true ∧
    (proxyImageHandler (some "https://scontent.cdninstagram.com/foo.jpg") 0 "1.2.3.4"
        (fun _ => .failure ⟨some "ECONNREFUSED", none⟩)).1 =
      jsonErrorResponse 404 "Image not found" :=
  ⟨by decide,
   (claim_C4_error_classification "https://scontent.cdninstagram.com/foo.jpg" 0 "1.2.3.4"
     (fun _ => .failure ⟨some "ECONNREFUSED", none⟩)
     ⟨some "ECONNREFUSED", none⟩ ⟨some "ECONNREFUSED", none⟩ ⟨some "ECONNREFUSED", none⟩
     (by decide) rfl rfl rfl).1 (Or.inr rfl)⟩

/-- C5: when all strategies fail and the final attempt's error is the fixed
timeout elapsing (`code === "ETIMEDOUT"`, no upstream response), the
outward response is status 408 with body `{error: "Request timeout"}`; the
fixed timeout passed to every attempt is 25000 ms (25 seconds). -/
theorem claim_C5_timeout (url : String) (uaIdx : Nat) (ip : String)
    (o : Nat → AttemptResult) (e1 e2 e3 : AxiosError)
    (hvalid : isValidImageUrl url = true) (h1 : o 1 = .failure e1)
    (h2 : o 2 = .failure e2) (h3 : o 3 = .failure e3)
    (hcode : e3.code = some "ETIMEDOUT") (hnoresp : e3.responseStatus = none) :
    (proxyImageHandler (some url) uaIdx ip o).1 =
      jsonErrorResponse 408 "Request timeout" ∧
    strategyTimeoutMs = 25000 := by
  rw [handler_all_fail url uaIdx ip o e1 e2 e3 hvalid h1 h2 h3]
  exact ⟨by simp [errorResponse, hcode, hnoresp], rfl⟩

/-- C5 witness: all strategies time out on a valid URL; the outward
response is 408 `{error: "Request timeout"}`. -/
theorem claim_C5_timeout_witness :
    isValidImageUrl "https://www.threads.net/img.jpg" = true ∧
    (proxyImageHandler (some "https://www.threads.net/img.jpg") 2 "9.9.9.9"
        (fun _ => .failure ⟨some "ETIMEDOUT", none⟩)).1 =
      jsonErrorResponse 408 "Request timeout" ∧
    strategyTimeoutMs = 25000 :=
  ⟨by decide,
   claim_C5_timeout "https://www.threads.net/img.jpg" 2 "9.9.9.9"
     (fun _ => .failure ⟨some "ETIMEDOUT", none⟩)
     ⟨some "ETIMEDOUT", none⟩ ⟨some "ETIMEDOUT", none⟩ ⟨some "ETIMEDOUT", none⟩
     (by decide) rfl rfl rfl rfl rfl⟩

/-- C6: when all three strategies fail with errors `e1`, `e2`, `e3`, the
surfaced response is a function of strategy 3's error alone — the outward
response equals `errorResponse e3` whatever `e1` and `e2` were. -/
theorem claim_C6_last_error_surfaced (url : String) (uaIdx : Nat) (ip : String)
    (o : Nat → AttemptResult) (e1 e2 e3 : AxiosError)
    (hvalid : isValidImageUrl url = true) (h1 : o 1 = .failure e1)
    (h2 : o 2 = .failure e2) (h3 : o 3 = .failure e3) :
    (proxyImageHandler (some url) uaIdx ip o).1 = errorResponse e3 :=
  handler_all_fail url uaIdx ip o e1 e2 e3 hvalid h1 h2 h3

/-- C6 witness: strategies 1 and 2 fail with connection-refused (which maps
to 404), strategy 3 with an upstream 403; the surfaced response is the 403
classification of strategy 3's error, not the earlier errors'. -/
theorem claim_C6_last_error_surfaced_witness :
    isValidImageUrl "https://instagram.com/p.jpg" = true ∧
    (proxyImageHandler (some "https://instagram.com/p.jpg") 1 "8.8.8.8"
        (fun i => if i ≤ 2 then .failure ⟨some "ECONNREFUSED", none⟩
                  else .failure ⟨none, some 403⟩)).1 =
      errorResponse ⟨none, some 403⟩ :=
  ⟨by decide,
   claim_C6_last_error_surfaced "https://instagram.com/p.jpg" 1 "8.8.8.8"
     (fun i => if i ≤ 2 then .failure ⟨some "ECONNREFUSED", none⟩
               else .failure ⟨none, some 403⟩)
     ⟨some "ECONNREFUSED", none⟩ ⟨some "ECONNREFUSED", none⟩ ⟨none, some 403⟩
     (by decide) rfl rfl rfl⟩

/-- C7: the user-agent pool has at least 4 entries, the request's single
draw `randomUA uaIdx` is an element of the pool, and every network call
made within the request sends exactly that value as its `User-Agent`
header. -/
theorem claim_C7_single_user_agent (url : String) (uaIdx : Nat) (ip : String)
    (o : Nat → AttemptResult) (hvalid : isValidImageUrl url = true) :
    4 ≤ userAgents.length ∧
    randomUA uaIdx ∈ userAgents ∧
    ∀ c ∈ (proxyImageHandler (some url) uaIdx ip o).2,
      c.2.lookup "User-Agent" = some (randomUA uaIdx) := by
  refine ⟨by decide, getD_mem_userAgents _ (Nat.mod_lt _ (by decide)), ?_⟩
  rw [proxyImageHandler_valid url uaIdx ip o hvalid]
  rcases h1 : o 1 with ⟨ct1, d1⟩ | ⟨e1⟩ <;> rcases h2 : o 2 with ⟨ct2, d2⟩ | ⟨e2⟩ <;>
    rcases h3 : o 3 with ⟨ct3, d3⟩ | ⟨e3⟩ <;>
      simp [requestChain, runStrategyChain, h1, h2, h3,
        fullHeaders, minimalHeaders, altHeaders, List.lookup]

/-- C7 witness: with draw index 5 (pool index 1) and strategies 1 and 2
failing, both calls made carry the same pool user-agent. -/
theorem claim_C7_single_user_agent_witness :
    isValidImageUrl "https://threads.net/x.png" = true ∧
    (4 ≤ userAgents.length ∧
     randomUA 5 ∈ userAgents ∧
     ∀ c ∈ (proxyImageHandler (some "https://threads.net/x.png") 5 "4.4.4.4"
         (fun i => if i = 3 then .success none [1] else .failure ⟨none, none⟩)).2,
       c.2.lookup "User-Agent" = some (randomUA 5)) :=
  ⟨by decide,
   claim_C7_single_user_agent "https://threads.net/x.png" 5 "4.4.4.4"
     (fun i => if i = 3 then .success none [1] else .failure ⟨none, none⟩)
     (by decide)⟩

/-- C8: for every string that parses (hostname `h`), validation returns
true iff `h` contains or ends with one of the five allow-list entries; in
particular the hostile hostname `instagram.com.attacker.net` is accepted
via the substring match. -/
theorem claim_C8_allowlist_semantics :
    (∀ s h, parseHostname s = some h →
      isValidImageUrl s =
        (validDomains.any fun d => strIncludes h d || strEndsWith h d)) ∧
    isValidImageUrl "https://instagram.com.attacker.net/a.jpg" = true := by
  refine ⟨?_, by decide⟩
  intro s h hp
  simp only [isValidImageUrl, hp]

/-- C8 witness: the hostile URL parses to its hostname and the validator
agrees with the contains-or-ends-with predicate there. -/
theorem claim_C8_allowlist_semantics_witness :
    parseHostname "https://instagram.com.attacker.net/a.jpg" =
      some "instagram.com.attacker.net" ∧
    isValidImageUrl "https://instagram.com.attacker.net/a.jpg" =
      (validDomains.any fun d =>
        strIncludes "instagram.com.attacker.net" d ||
        strEndsWith "instagram.com.attacker.net" d) :=
  ⟨by decide,
   claim_C8_allowlist_semantics.1 "https://instagram.com.attacker.net/a.jpg"
     "instagram.com.attacker.net" (by decide)⟩

/-- C9: a present-but-empty `url` query parameter takes the same branch as
an absent one (`if (!url)` uses falsiness): status 400, body
`{error: "URL parameter is required"}`, no validation outcome observable,
and zero network calls. -/
theorem claim_C9_empty_url_param (uaIdx : Nat) (ip : String)
    (o : Nat → AttemptResult) :
    proxyImageHandler (some "") uaIdx ip o =
      (jsonErrorResponse 400 "URL parameter is required", []) ∧
    proxyImageHandler (some "") uaIdx ip o = proxyImageHandler none uaIdx ip o :=
  ⟨rfl, rfl⟩

/-- C10: deleting the `endsWith` clause does not change the validator on
any input: a hostname ending with an entry also contains it, so
`includes || endsWith` is extensionally the `includes`-only check. -/
theorem claim_C10_endsWith_redundant (s : String) :
    isValidImageUrl s = isValidImageUrlIncludesOnly s := by
  unfold isValidImageUrl isValidImageUrlIncludesOnly
  cases parseHostname s with
  | none => rfl
  | some hostname => simp only [includes_or_endsWith]
